import Mathlib

/-!
Verification development for the aws-free-tier-cpu-monitoring repository.

Shallow embedding of the two lambda handlers:
  * `src/terraform/lambda/analyze_metrics.py`  (ingestion pipeline)
  * `src/terraform/athena_query_lambda/lambda_function.py`  (query pipeline)

Modelling conventions:
  * Instants are integers (seconds since the epoch); `datetime.replace(second=0,
    microsecond=0)` becomes truncation to the enclosing minute.
  * CloudWatch metric values are rationals (the Python floats carry decimal data;
    float rounding itself is not modelled).
  * Python dicts are association lists built by `dictInsert` (insertion order kept,
    assignment to an existing key updates in place), matching CPython semantics.
  * Calls into external AWS services are supplied by an environment record; a call
    that raises an exception is an `Except.error`. An exception that the Python code
    does not catch surfaces as an `uncaught` handler outcome.
  * `json.dumps` serialization of the response body is kept as the structured
    `Json` value (the spec places envelope serialization out of scope).
-/

/-- Python dict assignment `d[k] = v` on an association list: updates the value of
an existing key in place (keeping its position), otherwise appends the binding. -/
def dictInsert {α β : Type} [DecidableEq α] (k : α) (v : β) : List (α × β) → List (α × β)
  | [] => [(k, v)]
  | (k₀, v₀) :: rest => if k₀ = k then (k, v) :: rest else (k₀, v₀) :: dictInsert k v rest

/-- Decimal digits of a natural number (most significant first), fuel-driven. -/
def natReprD (fuel : Nat) (n : Nat) : List Char :=
  match fuel with
  | 0 => []
  | fuel + 1 => if n < 10 then [Nat.digitChar n] else natReprD fuel (n / 10) ++ [Nat.digitChar (n % 10)]

/-- Python `str` of a natural number. -/
def natRepr (n : Nat) : String := ⟨natReprD (n + 1) n⟩

/-- Python `str` of an int (decimal, with a leading minus sign when negative). -/
def intRepr (i : Int) : String := if i < 0 then "-" ++ natRepr i.natAbs else natRepr i.natAbs

/-- Lexicographic `≤` on code-point sequences, the order Python uses to compare
strings. -/
def charListLe : List Char → List Char → Bool
  | [], _ => true
  | _ :: _, [] => false
  | a :: as, b :: bs => if a < b then true else if b < a then false else charListLe as bs

/-- Lexicographic `<` on code-point sequences. -/
def charListLt : List Char → List Char → Bool
  | [], [] => false
  | [], _ :: _ => true
  | _ :: _, [] => false
  | a :: as, b :: bs => if a < b then true else if b < a then false else charListLt as bs

/-- Python string `≤` (lexicographic on code points). -/
def strLe (a b : String) : Bool := charListLe a.data b.data

/-- Python string `<` (lexicographic on code points). -/
def strLt (a b : String) : Bool := charListLt a.data b.data

/-! ## Ingestion lambda: `src/terraform/lambda/analyze_metrics.py` -/

/-- `datetime.replace(second=0, microsecond=0)`: truncate an epoch instant down to
the whole minute. -/
def truncMinute (t : Int) : Int := t - t % 60

/-- One entry of CloudWatch's `MetricDataResults`: parallel `Timestamps` (already
rendered with `isoformat()`) and `Values` lists. -/
structure MetricDataResult where
  timestamps : List String
  values : List ℚ
deriving DecidableEq

/-- Environment of one ingestion invocation: the data the external services hand
to the handler. -/
structure IngestEnv where
  nowRaw : Int
  launchRaw : Int
  period : Nat
  metricDataResults : List (String × MetricDataResult)
deriving DecidableEq

/-- `to_map` from the source: `out[t.isoformat()] = v` over `zip(Timestamps, Values)`
(Python `zip` stops at the shorter list; assignment is dict upsert). -/
def to_map (r : MetricDataResult) : List (String × ℚ) :=
  (r.timestamps.zip r.values).foldl (fun acc tv => dictInsert tv.1 tv.2 acc) []

/-- `series = {r["Id"]: r for r in resp.get("MetricDataResults", [])}` -/
def seriesDict (rs : List (String × MetricDataResult)) : List (String × MetricDataResult) :=
  rs.foldl (fun acc p => dictInsert p.1 p.2 acc) []

/-- `series.get(id, {})`: an absent id yields the empty dict, whose
`.get("Timestamps", [])`/`.get("Values", [])` are empty lists. -/
def getSeries (rs : List (String × MetricDataResult)) (id : String) : MetricDataResult :=
  (List.lookup id (seriesDict rs)).getD ⟨[], []⟩

/-- `sorted(set(cpu_map.keys()) | set(in_map.keys()) | set(out_map.keys()))`:
the union of the key sets, ascending, without duplicates. -/
def computeAllTs (c i o : List (String × ℚ)) : List String :=
  ((c.map Prod.fst ++ i.map Prod.fst ++ o.map Prod.fst).dedup).insertionSort
    (fun a b => strLe a b = true)

/-- `v * 1000` rounded to the nearest integer with ties to even (the rounding
CPython's fixed-point `format` applies), computed on the exact fraction. -/
def roundTo3 (v : ℚ) : Int :=
  let t : Int := 1000 * v.num
  let d : Int := (v.den : Int)
  let fl := t / d
  let r := t % d
  if 2 * r < d then fl
  else if d < 2 * r then fl + 1
  else if fl % 2 = 0 then fl else fl + 1

/-- `f"{float(val):.3f}"` on a rational: round to thousandths and print with
exactly three digits after the decimal point. -/
def fmt3 (q : ℚ) : String :=
  let n : Int := roundTo3 q
  let sgn := if n < 0 then "-" else ""
  let a := n.natAbs
  sgn ++ natRepr (a / 1000) ++ "." ++
    ⟨[Nat.digitChar (a / 100 % 10), Nat.digitChar (a / 10 % 10), Nat.digitChar (a % 10)]⟩

/-- `_fmt` from the source: `None` → empty string; an integral value → `str(int(val))`;
otherwise three decimal places. `float(val).is_integer()` is `q.den = 1` for a
rational. -/
def _fmt : Option ℚ → String
  | none => ""
  | some v => if v.den = 1 then intRepr v.num else fmt3 v

/-- Observable result of an ingestion run: the returned summary fields plus the CSV
rows written to the object store (the date-partitioned key itself is out of the
claims' scope). -/
structure IngestOutput where
  status : String
  tsCount : Nat
  cpuCount : Nat
  inCount : Nat
  outCount : Nat
  periodSeconds : Nat
  windowStart : Int
  windowEnd : Int
  csvRows : List (List String)
deriving DecidableEq

/-- `lambda_handler` of `analyze_metrics.py`. -/
def analyze_lambda_handler (env : IngestEnv) : IngestOutput :=
  let end_ := truncMinute env.nowRaw
  let launch := truncMinute env.launchRaw
  let desired_start := end_ - 86400
  let start := max desired_start launch
  let cpu_map := to_map (getSeries env.metricDataResults "cpu")
  let in_map := to_map (getSeries env.metricDataResults "netin")
  let out_map := to_map (getSeries env.metricDataResults "netout")
  let all_ts := computeAllTs cpu_map in_map out_map
  let rows :=
    ["timestamp", "cpu_percent", "network_in_bytes", "network_out_bytes"] ::
      all_ts.map (fun ts =>
        [ts, _fmt (List.lookup ts cpu_map), _fmt (List.lookup ts in_map),
          _fmt (List.lookup ts out_map)])
  { status := "ok"
    tsCount := all_ts.length
    cpuCount := cpu_map.length
    inCount := in_map.length
    outCount := out_map.length
    periodSeconds := env.period
    windowStart := start
    windowEnd := end_
    csvRows := rows }

/-! ### Shared projections used by the claims about the ingestion handler -/

def cpuMapOf (env : IngestEnv) : List (String × ℚ) := to_map (getSeries env.metricDataResults "cpu")

def inMapOf (env : IngestEnv) : List (String × ℚ) := to_map (getSeries env.metricDataResults "netin")

def outMapOf (env : IngestEnv) : List (String × ℚ) := to_map (getSeries env.metricDataResults "netout")

def allTsOf (env : IngestEnv) : List String := computeAllTs (cpuMapOf env) (inMapOf env) (outMapOf env)

/-- The timestamp column of the merged CSV body (all rows below the header). -/
def mergedTimestamps (out : IngestOutput) : List String := out.csvRows.tail.map (fun r => r.headD "")

def qHalf : ℚ := ⟨25, 2, by decide, by decide⟩

/-- Concrete ingestion environment: one CPU sample at timestamp `"t1"`. -/
def envC5 : IngestEnv := ⟨0, 0, 300, [("cpu", ⟨["t1"], [qHalf]⟩)]⟩

/-! ## Query lambda: `src/terraform/athena_query_lambda/lambda_function.py` -/

/-- Python/JSON values as the handler sees them. Numbers are kept exactly as
`mantissa / 10 ^ scale` (scale 0 for JSON integers); float representation error of
`json.loads` is not modelled, and no arithmetic is ever performed on them. -/
inductive Json where
  | null
  | bool (b : Bool)
  | num (mantissa : Int) (scale : Nat)
  | str (s : String)
  | arr (elems : List Json)
  | obj (entries : List (String × Json))

/-- Does `needle` start `hay`? -/
def startsWithL : List Char → List Char → Bool
  | [], _ => true
  | _ :: _, [] => false
  | a :: as, b :: bs => a == b && startsWithL as bs

/-- Python `needle in hay` on code-point sequences. -/
def containsSub (needle : List Char) : List Char → Bool
  | [] => needle.isEmpty
  | c :: cs => startsWithL needle (c :: cs) || containsSub needle cs

/-- Python `needle in hay` for strings. -/
def strContains (needle hay : String) : Bool := containsSub needle.data hay.data

/-! ### `json.loads`: a recursive-descent JSON parser.

Modelled after the JSON grammar `json.loads` implements. Simplifications that no
claim touches: a `\u` escape becomes the code point directly (surrogate pairs are
not combined), leading-zero checks on numbers are skipped, and control characters
inside strings are accepted. -/

def jsonWs (c : Char) : Bool := c == ' ' || c == '\t' || c == '\n' || c == '\r'

def skipWs (cs : List Char) : List Char := cs.dropWhile jsonWs

def escMap : Char → Option Char
  | '"' => some '"'
  | '\\' => some '\\'
  | '/' => some '/'
  | 'b' => some (Char.ofNat 8)
  | 'f' => some (Char.ofNat 12)
  | 'n' => some (Char.ofNat 10)
  | 'r' => some (Char.ofNat 13)
  | 't' => some (Char.ofNat 9)
  | _ => none

def hexVal (c : Char) : Option Nat :=
  if c.isDigit then some (c.toNat - 48)
  else if 'a' ≤ c then (if c ≤ 'f' then some (c.toNat - 87) else none)
  else if 'A' ≤ c then (if c ≤ 'F' then some (c.toNat - 55) else none)
  else none

/-- Parse the remainder of a JSON string literal (after the opening quote),
returning the decoded content and the input after the closing quote. -/
def parseStringBody : Nat → List Char → Option (List Char × List Char)
  | 0, _ => none
  | _, [] => none
  | fuel + 1, c :: cs =>
    if c == '"' then some ([], cs)
    else if c == '\\' then
      match cs with
      | [] => none
      | e :: cs1 =>
        if e == 'u' then
          match cs1 with
          | h1 :: h2 :: h3 :: h4 :: cs2 =>
            match hexVal h1, hexVal h2, hexVal h3, hexVal h4 with
            | some a, some b, some c2, some d =>
              match parseStringBody fuel cs2 with
              | some (content, rest) => some (Char.ofNat (((a * 16 + b) * 16 + c2) * 16 + d) :: content, rest)
              | none => none
            | _, _, _, _ => none
          | _ => none
        else
          match escMap e with
          | some c1 =>
            match parseStringBody fuel cs1 with
            | some (content, rest) => some (c1 :: content, rest)
            | none => none
          | none => none
    else
      match parseStringBody fuel cs with
      | some (content, rest) => some (c :: content, rest)
      | none => none

def digitsToNat (ds : List Char) : Nat := ds.foldl (fun acc c => 10 * acc + (c.toNat - 48)) 0

/-- Parse a JSON number (integer part, optional fraction, optional exponent). -/
def parseNumber (cs : List Char) : Option (Json × List Char) :=
  let negp := match cs with
    | '-' :: rest => (true, rest)
    | _ => (false, cs)
  let ip := negp.2.takeWhile Char.isDigit
  let cs2 := negp.2.dropWhile Char.isDigit
  if ip.isEmpty then none
  else
    let fracp : Option (List Char × List Char) := match cs2 with
      | '.' :: rest =>
        if (rest.takeWhile Char.isDigit).isEmpty then none
        else some (rest.takeWhile Char.isDigit, rest.dropWhile Char.isDigit)
      | _ => some ([], cs2)
    match fracp with
    | none => none
    | some (fp, cs3) =>
      let expp : Option (Int × List Char) := match cs3 with
        | 'e' :: rest | 'E' :: rest =>
          let signed : (Bool × List Char) := match rest with
            | '+' :: r2 => (false, r2)
            | '-' :: r2 => (true, r2)
            | _ => (false, rest)
          let ed := signed.2.takeWhile Char.isDigit
          if ed.isEmpty then none
          else some (if signed.1 then -(digitsToNat ed : Int) else (digitsToNat ed : Int),
            signed.2.dropWhile Char.isDigit)
        | _ => some (0, cs3)
      match expp with
      | none => none
      | some (e, cs4) =>
        let m0 : Int := (digitsToNat (ip ++ fp) : Int)
        let m1 : Int := if negp.1 then -m0 else m0
        let net : Int := e - (fp.length : Int)
        if 0 ≤ net then some (.num (m1 * ((10 : Int) ^ net.toNat)) 0, cs4)
        else some (.num m1 (-net).toNat, cs4)

mutual

def parseValue : Nat → List Char → Option (Json × List Char)
  | 0, _ => none
  | fuel + 1, cs =>
    match skipWs cs with
    | [] => none
    | c :: rest =>
      if c == '{' then parseObjBody fuel rest
      else if c == '[' then parseArrBody fuel rest
      else if c == '"' then
        match parseStringBody (fuel + 1) rest with
        | some (content, rest1) => some (.str ⟨content⟩, rest1)
        | none => none
      else if c == 't' then
        match rest with
        | 'r' :: 'u' :: 'e' :: rest1 => some (.bool true, rest1)
        | _ => none
      else if c == 'f' then
        match rest with
        | 'a' :: 'l' :: 's' :: 'e' :: rest1 => some (.bool false, rest1)
        | _ => none
      else if c == 'n' then
        match rest with
        | 'u' :: 'l' :: 'l' :: rest1 => some (.null, rest1)
        | _ => none
      else parseNumber (c :: rest)

def parseArrBody : Nat → List Char → Option (Json × List Char)
  | 0, _ => none
  | fuel + 1, cs =>
    match skipWs cs with
    | ']' :: rest => some (.arr [], rest)
    | cs1 =>
      match parseValue fuel cs1 with
      | none => none
      | some (v, rest) => parseArrTail fuel [v] rest

def parseArrTail : Nat → List Json → List Char → Option (Json × List Char)
  | 0, _, _ => none
  | fuel + 1, acc, cs =>
    match skipWs cs with
    | ']' :: rest => some (.arr acc.reverse, rest)
    | ',' :: rest =>
      match parseValue fuel rest with
      | none => none
      | some (v, rest1) => parseArrTail fuel (v :: acc) rest1
    | _ => none

def parseObjBody : Nat → List Char → Option (Json × List Char)
  | 0, _ => none
  | fuel + 1, cs =>
    match skipWs cs with
    | '}' :: rest => some (.obj [], rest)
    | '"' :: rest =>
      match parseStringBody (fuel + 1) rest with
      | none => none
      | some (kcs, rest1) =>
        match skipWs rest1 with
        | ':' :: rest2 =>
          match parseValue fuel rest2 with
          | none => none
          | some (v, rest3) => parseObjTail fuel (dictInsert (⟨kcs⟩ : String) v []) rest3
        | _ => none
    | _ => none

def parseObjTail : Nat → List (String × Json) → List Char → Option (Json × List Char)
  | 0, _, _ => none
  | fuel + 1, acc, cs =>
    match skipWs cs with
    | '}' :: rest => some (.obj acc, rest)
    | ',' :: rest =>
      match skipWs rest with
      | '"' :: rest1 =>
        match parseStringBody (fuel + 1) rest1 with
        | none => none
        | some (kcs, rest2) =>
          match skipWs rest2 with
          | ':' :: rest3 =>
            match parseValue fuel rest3 with
            | none => none
            | some (v, rest4) => parseObjTail fuel (dictInsert (⟨kcs⟩ : String) v acc) rest4
          | _ => none
      | _ => none
    | _ => none

end

/-- `json.loads`: the whole input must be one JSON value with only trailing
whitespace. Fuel is bounded by the input length, which bounds nesting depth. -/
def parseJson (s : String) : Option Json :=
  match parseValue (s.length + 1) s.data with
  | some (v, rest) => if (skipWs rest).isEmpty then some v else none
  | none => none

/-! ### Query pipeline data model -/

/-- Athena query execution states. -/
inductive QState where
  | QUEUED
  | RUNNING
  | SUCCEEDED
  | FAILED
  | CANCELLED
deriving DecidableEq

/-- `state in ["SUCCEEDED", "FAILED", "CANCELLED"]` (line 46 of the source). -/
def QState.isTerminal : QState → Bool
  | .SUCCEEDED => true
  | .FAILED => true
  | .CANCELLED => true
  | _ => false

/-- The fields of one `get_query_execution` answer the handler reads. -/
structure AthenaStatus where
  state : QState
  stateChangeReason : Option String
  outputLocation : String
deriving DecidableEq

/-- An S3 `copy_object` request: `Bucket`/`CopySource.Key`/`Key`. -/
structure CopyReq where
  bucket : String
  sourceKey : String
  destKey : String
deriving DecidableEq

/-- Configuration read from environment variables at module load. -/
structure QueryConfig where
  database : String
  table : String
  maxWait : Nat
deriving DecidableEq

/-- One query invocation's external world: the submission outcome, the successive
poll observations (each paired with the elapsed seconds `time.time() - start_time`
measured at that iteration's deadline check), the copy outcome per request, and the
`get_query_results` outcome. An `Except.error` is the call raising an exception. -/
structure QueryEnv where
  startResult : Except String String
  polls : List (Except String AthenaStatus × Nat)
  copyResult : CopyReq → Except String Unit
  queryResults : Except String (List (List (Option String)))

/-- HTTP-style response envelope; the body is kept structured (its `json.dumps`
serialization is out of the modelled scope). -/
structure LambdaResponse where
  statusCode : Nat
  headers : List (String × String)
  body : Json

/-- How one invocation ends: a returned envelope, an uncaught Python exception, or
divergence (the poll loop never exits within the supplied observations). -/
inductive HandlerResult where
  | response (r : LambdaResponse)
  | uncaught (e : String)
  | diverge

/-- Observable outcome of one invocation: its result, the SQL (or other value)
passed to `start_query_execution`, and the copy request issued, when reached. -/
structure QueryOutcome where
  result : HandlerResult
  submitted : Option Json
  copyRequested : Option CopyReq

/-- `_response` from the source. -/
def _response (status_code : Nat) (body : Json) : LambdaResponse :=
  ⟨status_code, [("Content-Type", "application/json")], body⟩

/-- The poll loop of lines 41-50: check terminal state first, then the deadline
(strict `>`), else sleep and poll again. -/
inductive PollResult where
  | terminal (st : AthenaStatus)
  | timeout
  | pollError (e : String)
  | diverge
deriving DecidableEq

def pollLoop (maxWait : Nat) : List (Except String AthenaStatus × Nat) → PollResult
  | [] => .diverge
  | (obs, t) :: rest =>
    match obs with
    | .error e => .pollError e
    | .ok st =>
      if st.state.isTerminal then .terminal st
      else if maxWait < t then .timeout
      else pollLoop maxWait rest

/-- Python `"body" in event`: key test on a dict, substring test on a string,
membership on a list, `TypeError` otherwise. -/
def pyContains (event : Json) (k : String) : Except String Bool :=
  match event with
  | .obj kvs => .ok ((kvs.map Prod.fst).contains k)
  | .str s => .ok (strContains k s)
  | .arr xs => .ok (xs.any (fun x => match x with | .str s => s == k | _ => false))
  | _ => .error "TypeError: argument not iterable"

/-- Lines 18-25: resolve the request body. `body = {}`; when the event has a
`body` entry, a string body is `json.loads`-parsed (parse failure caught, body
stays `{}`), a non-string body is taken as-is; otherwise a dict event is itself
the body. The whole `event["body"]` access sits inside the bare `except:`, so a
non-dict event that passes the `"body" in event` test (a string with `body` as a
substring, a list holding `"body"`) has its indexing `TypeError` swallowed and
proceeds with `body = {}`; only the `in` test itself (line 19) is outside the
try and can raise. -/
def computeBody (event : Json) : Except String Json :=
  match pyContains event "body" with
  | .error e => .error e
  | .ok true =>
    match event with
    | .obj kvs =>
      match List.lookup "body" kvs with
      | some (.str s) => .ok ((parseJson s).getD (.obj []))
      | some v => .ok v
      | none => .ok (.obj [])
    | _ => .ok (.obj [])
  | .ok false =>
    match event with
    | .obj _ => .ok event
    | _ => .ok (.obj [])

/-- Python `body.get(k, default)`: dict lookup with default; `AttributeError` when
the receiver is not a dict. -/
def pyGet (body : Json) (k : String) (default : Json) : Except String Json :=
  match body with
  | .obj kvs => .ok ((List.lookup k kvs).getD default)
  | _ => .error "AttributeError: no attribute get"

/-- The default statement of line 27. -/
def defaultQuery (cfg : QueryConfig) : String :=
  "SELECT * FROM " ++ cfg.database ++ "." ++ cfg.table ++ " LIMIT 20;"

/-- Find the `://` scheme separator. -/
def findSchemeSep : List Char → Option (List Char)
  | [] => none
  | ':' :: '/' :: '/' :: rest => some rest
  | _ :: rest => findSchemeSep rest

/-- `urlparse` restricted to the `scheme://netloc/path` shape of S3 URLs (no
query/fragment), returning `(netloc, path)`. -/
def urlparseS3 (s : String) : String × String :=
  match findSchemeSep s.data with
  | some rest => (⟨rest.takeWhile (fun c => c != '/')⟩, ⟨rest.dropWhile (fun c => c != '/')⟩)
  | none => ("", s)

/-- Python `str.lstrip("/")`. -/
def lstripSlash (s : String) : String := ⟨s.data.dropWhile (fun c => c == '/')⟩

/-- `fixed_key` of line 64. -/
def fixed_key : String := "athena-query-results/latest.csv"

/-- Headers from row 0: `col.get("VarCharValue", "")`. -/
def shapeHeaders (row0 : List (Option String)) : List String :=
  row0.map (fun c => c.getD "")

/-- One data row: `{headers[i]: col.get("VarCharValue", None) for i, col in
enumerate(row["Data"])}`. Walking the headers in step with the row visits exactly
`headers[0], headers[1], ...`; running past the end is Python's `IndexError`. -/
def shapeRowAux (hs : List String) (row : List (Option String))
    (acc : List (String × Option String)) : Except String (List (String × Option String)) :=
  match row, hs with
  | [], _ => .ok acc
  | _ :: _, [] => .error "IndexError: list index out of range"
  | c :: cs, h :: hs1 => shapeRowAux hs1 cs (dictInsert h c acc)

def shapeRow (headers : List String) (row : List (Option String)) :
    Except String (List (String × Option String)) :=
  shapeRowAux headers row []

def shapeRows (headers : List String) :
    List (List (Option String)) → Except String (List (List (String × Option String)))
  | [] => .ok []
  | row :: rest =>
    match shapeRow headers row with
    | .error e => .error e
    | .ok m =>
      match shapeRows headers rest with
      | .error e => .error e
      | .ok ms => .ok (m :: ms)

/-- Lines 76-81: row 0 gives the headers; the remaining rows are shaped against
them. An empty result set hits `rows_data[0]` and raises. -/
def shapeAll (raw : List (List (Option String))) :
    Except String (List String × List (List (String × Option String))) :=
  match raw with
  | [] => .error "IndexError: list index out of range"
  | row0 :: rest =>
    match shapeRows (shapeHeaders row0) rest with
    | .error e => .error e
    | .ok ms => .ok (shapeHeaders row0, ms)

/-- A cell of a shaped row as it appears in the JSON body: `None` → `null`. -/
def cellJson : Option String → Json
  | none => Json.null
  | some s => Json.str s

/-- The `data` field of the 200 response body. -/
def rowsJson (rows : List (List (String × Option String))) : Json :=
  Json.arr (rows.map (fun r => Json.obj (r.map (fun kv => (kv.1, cellJson kv.2)))))

/-- Steps 2-8 of `lambda_handler` past query resolution (submission onward).
Every branch records the submitted query. -/
def afterSubmit (cfg : QueryConfig) (env : QueryEnv) (query : Json) : QueryOutcome :=
  match env.startResult with
  | .error e =>
    ⟨.response (_response 500 (.obj [("error", .str ("Failed to start query: " ++ e))])),
      some query, none⟩
  | .ok _qid =>
    match pollLoop cfg.maxWait env.polls with
    | .pollError e => ⟨.uncaught e, some query, none⟩
    | .diverge => ⟨.diverge, some query, none⟩
    | .timeout =>
      ⟨.response (_response 504 (.obj [("error", .str "Athena query timed out")])),
        some query, none⟩
    | .terminal st =>
      if st.state ≠ QState.SUCCEEDED then
        ⟨.response (_response 500 (.obj [("error",
            .str ("Query failed: " ++ st.stateChangeReason.getD "Unknown error"))])),
          some query, none⟩
      else
        let parsed := urlparseS3 st.outputLocation
        let bucket := parsed.1
        let key := lstripSlash parsed.2
        let req : CopyReq := ⟨bucket, key, fixed_key⟩
        match env.copyResult req with
        | .error e =>
          ⟨.response (_response 500 (.obj [("error",
              .str ("Failed to copy latest.csv: " ++ e))])), some query, some req⟩
        | .ok _ =>
          match env.queryResults with
          | .error e => ⟨.uncaught e, some query, some req⟩
          | .ok raw =>
            match shapeAll raw with
            | .error e => ⟨.uncaught e, some query, some req⟩
            | .ok hd =>
              ⟨.response (_response 200 (.obj [("data", rowsJson hd.2),
                  ("csv_url", .str ("s3://" ++ bucket ++ "/" ++ fixed_key))])),
                some query, some req⟩

/-- `lambda_handler` of `lambda_function.py`: resolve the body and the query, then
submit, poll, materialize and shape. -/
def lambda_handler (event : Json) (cfg : QueryConfig) (env : QueryEnv) : QueryOutcome :=
  match computeBody event with
  | .error e => ⟨.uncaught e, none, none⟩
  | .ok body =>
    match pyGet body "query" (.str (defaultQuery cfg)) with
    | .error e => ⟨.uncaught e, none, none⟩
    | .ok query => afterSubmit cfg env query

/-- One poll observation that keeps the loop going: the call succeeded, the state
is non-terminal, and the elapsed time is within the deadline. -/
def okNonTermWithin (maxWait : Nat) (p : Except String AthenaStatus × Nat) : Prop :=
  ∃ st : AthenaStatus, p.1 = .ok st ∧ st.state.isTerminal = false ∧ p.2 ≤ maxWait

def cfg0 : QueryConfig := ⟨"cpu_metrics", "ec2_metrics_typed", 50⟩

def stRunning : AthenaStatus := ⟨.RUNNING, none, ""⟩

def stSucc : AthenaStatus := ⟨.SUCCEEDED, none, "s3://bkt/res/q1.csv"⟩

def envTimeout : QueryEnv := ⟨.ok "qid", [(.ok stRunning, 51)], fun _ => .ok (), .ok []⟩

/-- Field lookup in a JSON object value. -/
def jField (j : Json) (k : String) : Option Json :=
  match j with
  | .obj kvs => List.lookup k kvs
  | _ => none

def stFailed : AthenaStatus := ⟨.FAILED, some "SYNTAX_ERROR", "s3://bkt/res/q2.csv"⟩

def stCancelledNoReason : AthenaStatus := ⟨.CANCELLED, none, "s3://bkt/res/q3.csv"⟩

def envFailed : QueryEnv := ⟨.ok "qid", [(.ok stFailed, 0)], fun _ => .ok (), .ok []⟩

def envCancelled : QueryEnv := ⟨.ok "qid", [(.ok stCancelledNoReason, 0)], fun _ => .ok (), .ok []⟩

def envStartErr : QueryEnv := ⟨.error "AccessDenied", [], fun _ => .ok (), .ok []⟩

def envPollErr : QueryEnv := ⟨.ok "qid", [(.error "ConnectionError", 0)], fun _ => .ok (), .ok []⟩

def envAny : QueryEnv :=
  ⟨.ok "qid", [(.ok stSucc, 0)], fun _ => .ok (), .ok [[some "a"], [some "1"]]⟩

def envCopyFail : QueryEnv :=
  ⟨.ok "qid", [(.ok stSucc, 0)], fun _ => .error "NoSuchKey", .ok [[some "a"], [some "1"]]⟩

def envResErr : QueryEnv :=
  ⟨.ok "qid", [(.ok stSucc, 0)], fun _ => .ok (), .error "ThrottlingException"⟩

def envShapeErr : QueryEnv := ⟨.ok "qid", [(.ok stSucc, 0)], fun _ => .ok (), .ok []⟩

/-! ### Evaluation checks -/

example : _fmt (some (12 : ℚ)) = "12" := by decide
example : _fmt (some (⟨25, 2, by decide, by decide⟩ : ℚ)) = "12.500" := by decide
example : _fmt none = "" := by decide
example : strLe "2024-01-01T00:05:00" "2024-01-01T00:10:00" = true := by decide
example : computeAllTs [("b", 1)] [("a", 2)] [("b", 3)] = ["a", "b"] := by decide

example : parseJson "42" = some (.num 42 0) := rfl
example : parseJson "not json" = none := rfl
example : parseJson "\x7b\"query\": \"SELECT 1\"\x7d"
    = some (.obj [("query", .str "SELECT 1")]) := rfl
example : parseJson "\x7b\"a\": [1, true, null, \"x\"]\x7d"
    = some (.obj [("a", .arr [.num 1 0, .bool true, .null, .str "x"])]) := rfl
example : parseJson "1.5e2" = some (.num 150 0) := rfl
example : parseJson "-0.25" = some (.num (-25) 2) := rfl

example : urlparseS3 "s3://bkt/results/abc.csv" = ("bkt", "/results/abc.csv") := rfl
example : lstripSlash "/results/abc.csv" = "results/abc.csv" := rfl

/-! ## Theorems -/

/-! ### Order facts about the lexicographic string order -/

theorem charListLe_total : ∀ as bs, charListLe as bs = true ∨ charListLe bs as = true
  | [], _ => Or.inl rfl
  | _ :: _, [] => Or.inr rfl
  | a :: as, b :: bs => by
    rcases lt_trichotomy a b with h | h | h
    · left; simp [charListLe, h]
    · subst h
      rcases charListLe_total as bs with ih | ih
      · left; simpa [charListLe, lt_irrefl] using ih
      · right; simpa [charListLe, lt_irrefl] using ih
    · right; simp [charListLe, h]

theorem charListLe_trans :
    ∀ as bs cs, charListLe as bs = true → charListLe bs cs = true → charListLe as cs = true
  | [], _, _, _, _ => rfl
  | _ :: _, [], _, h, _ => by simp [charListLe] at h
  | _ :: _, _ :: _, [], _, h => by simp [charListLe] at h
  | a :: as, b :: bs, c :: cs, h1, h2 => by
    by_cases hab : a < b
    · by_cases hbc : b < c
      · simp [charListLe, lt_trans hab hbc]
      · by_cases hcb : c < b
        · simp [charListLe, hbc, hcb] at h2
        · have hbceq : b = c := le_antisymm (le_of_not_lt hcb) (le_of_not_lt hbc)
          subst hbceq
          simp [charListLe, hab]
    · by_cases hba : b < a
      · simp [charListLe, hab, hba] at h1
      · have habeq : a = b := le_antisymm (le_of_not_lt hba) (le_of_not_lt hab)
        subst habeq
        simp only [charListLe, lt_irrefl, if_false] at h1
        by_cases hac : a < c
        · simp [charListLe, hac]
        · by_cases hca : c < a
          · simp [charListLe, hac, hca] at h2
          · have haceq : a = c := le_antisymm (le_of_not_lt hca) (le_of_not_lt hac)
            subst haceq
            simp only [charListLe, lt_irrefl, if_false] at h2 ⊢
            exact charListLe_trans as bs cs h1 h2

theorem charListLe_ne_lt :
    ∀ as bs, charListLe as bs = true → as ≠ bs → charListLt as bs = true
  | [], [], _, hne => absurd rfl hne
  | [], _ :: _, _, _ => rfl
  | _ :: _, [], h, _ => by simp [charListLe] at h
  | a :: as, b :: bs, h, hne => by
    by_cases hab : a < b
    · simp [charListLt, hab]
    · by_cases hba : b < a
      · simp [charListLe, hab, hba] at h
      · have habeq : a = b := le_antisymm (le_of_not_lt hba) (le_of_not_lt hab)
        subst habeq
        simp only [charListLe, lt_irrefl, if_false] at h
        have hne' : as ≠ bs := fun he => hne (by rw [he])
        simp only [charListLt, lt_irrefl, if_false]
        exact charListLe_ne_lt as bs h hne'

instance : IsTotal String (fun a b => strLe a b = true) :=
  ⟨fun a b => charListLe_total a.data b.data⟩

instance : IsTrans String (fun a b => strLe a b = true) :=
  ⟨fun a b c => charListLe_trans a.data b.data c.data⟩

theorem strLe_ne_lt {a b : String} (h : strLe a b = true) (hne : a ≠ b) : strLt a b = true := by
  refine charListLe_ne_lt a.data b.data h (fun he => hne ?_)
  cases a; cases b; exact congrArg String.mk he

theorem csvRows_eq (env : IngestEnv) :
    (analyze_lambda_handler env).csvRows
      = ["timestamp", "cpu_percent", "network_in_bytes", "network_out_bytes"] ::
          (allTsOf env).map (fun ts =>
            [ts, _fmt (List.lookup ts (cpuMapOf env)), _fmt (List.lookup ts (inMapOf env)),
              _fmt (List.lookup ts (outMapOf env))]) := rfl

theorem mergedTimestamps_eq (env : IngestEnv) :
    mergedTimestamps (analyze_lambda_handler env) = allTsOf env := by
  simp only [mergedTimestamps, csvRows_eq, List.tail_cons, List.map_map]
  exact (List.map_congr_left fun ts _ => rfl).trans (List.map_id _)

/-! ### Digit-string facts -/

theorem digitChar_isDigit {n : Nat} (h : n < 10) : (Nat.digitChar n).isDigit = true := by
  interval_cases n <;> decide

theorem natReprD_digits (fuel : Nat) :
    ∀ n : Nat, ∀ c ∈ natReprD fuel n, c.isDigit = true := by
  induction fuel with
  | zero => intro n c hc; simp [natReprD] at hc
  | succ fuel ih =>
    intro n c hc
    by_cases hn : n < 10
    · simp only [natReprD, if_pos hn, List.mem_singleton] at hc
      subst hc
      exact digitChar_isDigit hn
    · simp only [natReprD, if_neg hn, List.mem_append, List.mem_singleton] at hc
      rcases hc with hc | hc
      · exact ih _ c hc
      · subst hc
        exact digitChar_isDigit (Nat.mod_lt _ (by norm_num))

theorem natRepr_no_dot (n : Nat) : '.' ∉ (natRepr n).data := by
  intro hdot
  have hdig := natReprD_digits (n + 1) n '.' hdot
  exact absurd hdig (by decide)

/-! ### Claim C3 -/

/-- C3: for every instance launch time and every window end (current UTC time
truncated to the minute), the ingestion window start computed by `lambda_handler`
equals `max (end - 24h) launch`; it is never earlier than the (minute-truncated)
launch time, and when the launch time is within the last 24 hours the start equals
it exactly. -/
theorem ingestion_window_start_correct (env : IngestEnv) :
    (analyze_lambda_handler env).windowStart
        = max ((analyze_lambda_handler env).windowEnd - 86400) (truncMinute env.launchRaw)
      ∧ truncMinute env.launchRaw ≤ (analyze_lambda_handler env).windowStart
      ∧ ((analyze_lambda_handler env).windowEnd - 86400 ≤ truncMinute env.launchRaw →
          (analyze_lambda_handler env).windowStart = truncMinute env.launchRaw) :=
  ⟨rfl, le_max_right _ _, fun h => max_eq_right h⟩

theorem ingestion_window_start_correct_witness :
    ((analyze_lambda_handler ⟨60, 0, 300, []⟩).windowEnd - 86400 ≤ truncMinute 0)
      ∧ (analyze_lambda_handler ⟨60, 0, 300, []⟩).windowStart = truncMinute 0 :=
  ⟨by decide, (ingestion_window_start_correct ⟨60, 0, 300, []⟩).2.2 (by decide)⟩

/-! ### Claim C4 -/

/-- C4: the set of timestamps in the merged CSV body is exactly the union of the
three series' timestamp sets, the rows are in strictly ascending (lexicographic,
hence chronological for the fixed-format ISO timestamps) order, and no timestamp
appears in more than one row. -/
theorem merged_timestamps_union_sorted (env : IngestEnv) :
    (∀ ts : String,
        ts ∈ mergedTimestamps (analyze_lambda_handler env) ↔
          ts ∈ (cpuMapOf env).map Prod.fst ∨ ts ∈ (inMapOf env).map Prod.fst ∨
            ts ∈ (outMapOf env).map Prod.fst)
      ∧ List.Sorted (fun a b => strLt a b = true) (mergedTimestamps (analyze_lambda_handler env))
      ∧ (mergedTimestamps (analyze_lambda_handler env)).Nodup := by
  have hsorted : List.Sorted (fun a b => strLe a b = true) (allTsOf env) :=
    List.sorted_insertionSort _ _
  have hnodup : (allTsOf env).Nodup :=
    (List.perm_insertionSort _ _).nodup_iff.mpr (List.nodup_dedup _)
  refine ⟨fun ts => ?_, ?_, ?_⟩
  · rw [mergedTimestamps_eq]
    simp [allTsOf, computeAllTs, or_assoc]
  · rw [mergedTimestamps_eq]
    exact hsorted.imp₂ (fun _ _ hle hne => strLe_ne_lt hle hne) hnodup
  · rw [mergedTimestamps_eq]
    exact hnodup

/-! ### Claim C5 -/

/-- C5: every merged row carries one cell per series; a present value renders via
`_fmt` as `str(int(v))` when integral and with exactly three decimal places
otherwise, and an absent value renders as the empty string (never `"0"`, never
omitted). -/
theorem merged_cell_formatting (env : IngestEnv) (ts : String) (h : ts ∈ allTsOf env) :
    ([ts, _fmt (List.lookup ts (cpuMapOf env)), _fmt (List.lookup ts (inMapOf env)),
        _fmt (List.lookup ts (outMapOf env))] ∈ (analyze_lambda_handler env).csvRows.tail)
      ∧ (∀ v : ℚ, v.den = 1 → _fmt (some v) = intRepr v.num)
      ∧ (∀ v : ℚ, v.den ≠ 1 →
          ∃ ip fp : String, _fmt (some v) = ip ++ "." ++ fp ∧ fp.length = 3 ∧
            (∀ c ∈ fp.data, c.isDigit = true) ∧ '.' ∉ ip.data)
      ∧ _fmt none = "" := by
  refine ⟨?_, ?_, ?_, rfl⟩
  · rw [csvRows_eq, List.tail_cons]
    exact List.mem_map_of_mem _ h
  · intro v hv
    simp [_fmt, hv]
  · intro v hv
    simp only [_fmt, hv, if_false, fmt3]
    refine ⟨(if roundTo3 v < 0 then "-" else "") ++ natRepr ((roundTo3 v).natAbs / 1000),
      ⟨[Nat.digitChar ((roundTo3 v).natAbs / 100 % 10), Nat.digitChar ((roundTo3 v).natAbs / 10 % 10),
        Nat.digitChar ((roundTo3 v).natAbs % 10)]⟩, rfl, rfl, ?_, ?_⟩
    · intro c hc
      simp only [List.mem_cons, List.not_mem_nil, or_false] at hc
      rcases hc with hc | hc | hc <;> subst hc <;>
        exact digitChar_isDigit (Nat.mod_lt _ (by norm_num))
    · intro hdot
      rw [String.data_append] at hdot
      rcases List.mem_append.mp hdot with hdot | hdot
      · by_cases hneg : roundTo3 v < 0 <;> simp [hneg] at hdot
      · exact natRepr_no_dot _ hdot

theorem merged_cell_formatting_witness :
    ("t1" ∈ allTsOf envC5)
      ∧ ["t1", _fmt (List.lookup "t1" (cpuMapOf envC5)), _fmt (List.lookup "t1" (inMapOf envC5)),
          _fmt (List.lookup "t1" (outMapOf envC5))] ∈ (analyze_lambda_handler envC5).csvRows.tail
      ∧ ((12 : ℚ).den = 1 ∧ _fmt (some (12 : ℚ)) = intRepr (12 : ℚ).num)
      ∧ (qHalf.den ≠ 1 ∧ ∃ ip fp : String, _fmt (some qHalf) = ip ++ "." ++ fp ∧ fp.length = 3 ∧
          (∀ c ∈ fp.data, c.isDigit = true) ∧ '.' ∉ ip.data) :=
  ⟨by decide, (merged_cell_formatting envC5 "t1" (by decide)).1,
    ⟨by decide, (merged_cell_formatting envC5 "t1" (by decide)).2.1 12 (by decide)⟩,
    ⟨by decide, (merged_cell_formatting envC5 "t1" (by decide)).2.2.1 qHalf (by decide)⟩⟩

/-! ### Helper lemmas about the query handler -/

theorem afterSubmit_submitted (cfg : QueryConfig) (env : QueryEnv) (q : Json) :
    (afterSubmit cfg env q).submitted = some q := by
  unfold afterSubmit
  dsimp only
  repeat' split
  all_goals rfl

theorem handler_eq_afterSubmit {event b q : Json} (cfg : QueryConfig) (env : QueryEnv)
    (hb : computeBody event = .ok b)
    (hq : pyGet b "query" (.str (defaultQuery cfg)) = .ok q) :
    lambda_handler event cfg env = afterSubmit cfg env q := by
  unfold lambda_handler
  simp only [hb, hq]

/-! ### Claim C1 -/

/-- C1: a terminal state observed while within the deadline exits the loop with
that state; a state that stays non-terminal past the deadline yields the 504
timeout response, which is distinct from the 500 query-failure response and is
never a success. -/
theorem poll_deadline_behavior (cfg : QueryConfig) :
    (∀ (pre rest : List (Except String AthenaStatus × Nat)) (st : AthenaStatus) (t : Nat),
        (∀ p ∈ pre, okNonTermWithin cfg.maxWait p) → st.state.isTerminal = true →
          t ≤ cfg.maxWait →
          pollLoop cfg.maxWait (pre ++ (Except.ok st, t) :: rest) = .terminal st)
      ∧ (∀ obs : List (Except String AthenaStatus × Nat),
          (∀ p ∈ obs, ∃ st : AthenaStatus, p.1 = .ok st ∧ st.state.isTerminal = false) →
          (∃ p ∈ obs, cfg.maxWait < p.2) →
          pollLoop cfg.maxWait obs = .timeout)
      ∧ (∀ (event : Json) (env : QueryEnv) (b q : Json) (qid : String),
          computeBody event = .ok b → pyGet b "query" (.str (defaultQuery cfg)) = .ok q →
          env.startResult = .ok qid →
          pollLoop cfg.maxWait env.polls = .timeout →
          (lambda_handler event cfg env).result
              = .response (_response 504 (.obj [("error", .str "Athena query timed out")]))
            ∧ (504 : Nat) ≠ 500 ∧ (504 : Nat) ≠ 200) := by
  refine ⟨?_, ?_, ?_⟩
  · intro pre rest st t hpre hterm ht
    induction pre with
    | nil => simp [pollLoop, hterm]
    | cons p pre ih =>
      obtain ⟨stp, hok, hnt, hle⟩ := hpre p (by simp)
      obtain ⟨p1, p2⟩ := p
      simp only at hok
      subst hok
      simp only [List.cons_append, pollLoop, hnt, Bool.false_eq_true, if_false,
        Nat.not_lt.mpr hle]
      exact ih (fun p hp => hpre p (by simp [hp]))
  · intro obs hall hex
    induction obs with
    | nil => simp at hex
    | cons p rest ih =>
      obtain ⟨stp, hok, hnt⟩ := hall p (by simp)
      obtain ⟨p1, p2⟩ := p
      simp only at hok
      subst hok
      by_cases hgt : cfg.maxWait < p2
      · simp [pollLoop, hnt, hgt]
      · simp only [pollLoop, hnt, Bool.false_eq_true, if_false, hgt]
        apply ih
        · intro p hp
          exact hall p (by simp [hp])
        · rcases hex with ⟨p, hp, hgt1⟩
          rcases List.mem_cons.mp hp with heq | hp1
          · subst heq
            exact absurd hgt1 hgt
          · exact ⟨p, hp1, hgt1⟩
  · intro event env b q qid hb hq hstart hpoll
    rw [handler_eq_afterSubmit cfg env hb hq]
    unfold afterSubmit
    rw [hstart, hpoll]
    exact ⟨rfl, by decide, by decide⟩

theorem poll_deadline_behavior_witness :
    pollLoop cfg0.maxWait [(.ok stRunning, 0), (.ok stSucc, 1)] = .terminal stSucc
      ∧ pollLoop cfg0.maxWait [(.ok stRunning, 51)] = .timeout
      ∧ (lambda_handler (.obj []) cfg0 envTimeout).result
          = .response (_response 504 (.obj [("error", .str "Athena query timed out")])) :=
  ⟨(poll_deadline_behavior cfg0).1 [(.ok stRunning, 0)] [] stSucc 1
      (by
        intro p hp
        simp only [List.mem_singleton] at hp
        subst hp
        exact ⟨stRunning, rfl, rfl, by decide⟩)
      rfl (by decide),
    (poll_deadline_behavior cfg0).2.1 [(.ok stRunning, 51)]
      (by
        intro p hp
        simp only [List.mem_singleton] at hp
        subst hp
        exact ⟨stRunning, rfl, rfl⟩)
      ⟨(.ok stRunning, 51), by simp, by decide⟩,
    ((poll_deadline_behavior cfg0).2.2 (.obj []) envTimeout (.obj [])
        (.str (defaultQuery cfg0)) "qid" rfl rfl rfl rfl).1⟩

/-! ### Claim C7 -/

/-- C7: on a terminal state other than SUCCEEDED the handler returns a 500
response whose error message contains the engine-supplied StateChangeReason
verbatim when one is present, and the literal "Unknown error" placeholder when the
reason field is absent. -/
theorem query_failure_reason (cfg : QueryConfig) (env : QueryEnv) (event b q : Json)
    (st : AthenaStatus) (qid : String)
    (hb : computeBody event = .ok b)
    (hq : pyGet b "query" (.str (defaultQuery cfg)) = .ok q)
    (hstart : env.startResult = .ok qid)
    (hpoll : pollLoop cfg.maxWait env.polls = .terminal st)
    (hfail : st.state ≠ QState.SUCCEEDED) :
    (lambda_handler event cfg env).result
        = .response (_response 500 (.obj [("error",
            .str ("Query failed: " ++ st.stateChangeReason.getD "Unknown error"))]))
      ∧ (∀ r : String, st.stateChangeReason = some r →
          ∃ pre post : String,
            "Query failed: " ++ st.stateChangeReason.getD "Unknown error" = pre ++ (r ++ post))
      ∧ (st.stateChangeReason = none →
          ∃ pre post : String,
            "Query failed: " ++ st.stateChangeReason.getD "Unknown error"
              = pre ++ ("Unknown error" ++ post)) := by
  refine ⟨?_, ?_, ?_⟩
  · rw [handler_eq_afterSubmit cfg env hb hq]
    unfold afterSubmit
    simp only [hstart, hpoll]
    rw [if_pos hfail]
  · intro r hr
    refine ⟨"Query failed: ", "", ?_⟩
    rw [hr]
    simp
  · intro hr
    refine ⟨"Query failed: ", "", ?_⟩
    rw [hr]
    simp

theorem query_failure_reason_witness :
    (lambda_handler (.obj []) cfg0 envFailed).result
        = .response (_response 500 (.obj [("error",
            .str ("Query failed: " ++ stFailed.stateChangeReason.getD "Unknown error"))]))
      ∧ (∃ pre post : String,
          "Query failed: " ++ stFailed.stateChangeReason.getD "Unknown error"
            = pre ++ ("SYNTAX_ERROR" ++ post))
      ∧ (lambda_handler (.obj []) cfg0 envCancelled).result
          = .response (_response 500 (.obj [("error",
              .str ("Query failed: "
                  ++ stCancelledNoReason.stateChangeReason.getD "Unknown error"))]))
      ∧ (∃ pre post : String,
          "Query failed: " ++ stCancelledNoReason.stateChangeReason.getD "Unknown error"
            = pre ++ ("Unknown error" ++ post)) :=
  ⟨(query_failure_reason cfg0 envFailed (.obj []) (.obj []) (.str (defaultQuery cfg0))
      stFailed "qid" rfl rfl rfl rfl (by decide)).1,
    (query_failure_reason cfg0 envFailed (.obj []) (.obj []) (.str (defaultQuery cfg0))
      stFailed "qid" rfl rfl rfl rfl (by decide)).2.1 "SYNTAX_ERROR" rfl,
    (query_failure_reason cfg0 envCancelled (.obj []) (.obj []) (.str (defaultQuery cfg0))
      stCancelledNoReason "qid" rfl rfl rfl rfl (by decide)).1,
    (query_failure_reason cfg0 envCancelled (.obj []) (.obj []) (.str (defaultQuery cfg0))
      stCancelledNoReason "qid" rfl rfl rfl rfl (by decide)).2.2 rfl⟩

/-! ### Claim C8 -/

/-- C8: on SUCCEEDED the result artifact at the engine-reported output location is
copied to the fixed key `athena-query-results/latest.csv` in the same bucket; the
200 response's csv_url points at exactly that fixed key; a failed copy yields a
500 materialization error with no 200 response and no csv_url. -/
theorem materialize_fixed_key (cfg : QueryConfig) (env : QueryEnv) (event b q : Json)
    (st : AthenaStatus) (qid : String)
    (hb : computeBody event = .ok b)
    (hq : pyGet b "query" (.str (defaultQuery cfg)) = .ok q)
    (hstart : env.startResult = .ok qid)
    (hpoll : pollLoop cfg.maxWait env.polls = .terminal st)
    (hsucc : st.state = QState.SUCCEEDED) :
    (lambda_handler event cfg env).copyRequested
        = some ⟨(urlparseS3 st.outputLocation).1, lstripSlash (urlparseS3 st.outputLocation).2,
            fixed_key⟩
      ∧ (∀ e : String,
          env.copyResult ⟨(urlparseS3 st.outputLocation).1,
              lstripSlash (urlparseS3 st.outputLocation).2, fixed_key⟩ = .error e →
          (lambda_handler event cfg env).result
              = .response (_response 500 (.obj [("error",
                  .str ("Failed to copy latest.csv: " ++ e))]))
            ∧ jField (.obj [("error", .str ("Failed to copy latest.csv: " ++ e))]) "csv_url"
                = none)
      ∧ (∀ (raw : List (List (Option String)))
            (hd : List String × List (List (String × Option String))),
          env.copyResult ⟨(urlparseS3 st.outputLocation).1,
              lstripSlash (urlparseS3 st.outputLocation).2, fixed_key⟩ = .ok () →
          env.queryResults = .ok raw → shapeAll raw = .ok hd →
          (lambda_handler event cfg env).result
              = .response (_response 200 (.obj [("data", rowsJson hd.2),
                  ("csv_url", .str ("s3://" ++ (urlparseS3 st.outputLocation).1 ++ "/"
                      ++ fixed_key))]))) := by
  have hns : ¬(st.state ≠ QState.SUCCEEDED) := by simp [hsucc]
  have hmain : lambda_handler event cfg env = afterSubmit cfg env q :=
    handler_eq_afterSubmit cfg env hb hq
  refine ⟨?_, ?_, ?_⟩
  · rw [hmain]
    unfold afterSubmit
    simp only [hstart, hpoll]
    rw [if_neg hns]
    repeat' split
    all_goals rfl
  · intro e hcopy
    rw [hmain]
    unfold afterSubmit
    simp only [hstart, hpoll]
    rw [if_neg hns]
    rw [hcopy]
    exact ⟨rfl, rfl⟩
  · intro raw hd hcopy hres hshape
    rw [hmain]
    unfold afterSubmit
    simp only [hstart, hpoll]
    rw [if_neg hns]
    simp only [hcopy, hres, hshape]

theorem materialize_fixed_key_witness :
    (lambda_handler (.obj []) cfg0 envAny).copyRequested
        = some ⟨(urlparseS3 stSucc.outputLocation).1,
            lstripSlash (urlparseS3 stSucc.outputLocation).2, fixed_key⟩
      ∧ (lambda_handler (.obj []) cfg0 envAny).result
          = .response (_response 200 (.obj [("data", rowsJson [[("a", some "1")]]),
              ("csv_url", .str ("s3://" ++ (urlparseS3 stSucc.outputLocation).1 ++ "/"
                  ++ fixed_key))]))
      ∧ (lambda_handler (.obj []) cfg0 envCopyFail).result
          = .response (_response 500 (.obj [("error",
              .str ("Failed to copy latest.csv: " ++ "NoSuchKey"))])) :=
  ⟨(materialize_fixed_key cfg0 envAny (.obj []) (.obj []) (.str (defaultQuery cfg0))
      stSucc "qid" rfl rfl rfl rfl rfl).1,
    (materialize_fixed_key cfg0 envAny (.obj []) (.obj []) (.str (defaultQuery cfg0))
      stSucc "qid" rfl rfl rfl rfl rfl).2.2 [[some "a"], [some "1"]]
      (["a"], [[("a", some "1")]]) rfl rfl rfl,
    ((materialize_fixed_key cfg0 envCopyFail (.obj []) (.obj []) (.str (defaultQuery cfg0))
      stSucc "qid" rfl rfl rfl rfl rfl).2.1 "NoSuchKey" rfl).1⟩

/-! ### Claim C2 -/

/-- C2 counterexample: an exception raised while polling (`get_query_execution`
is outside any try/except) is NOT caught — the handler ends with an uncaught
exception instead of returning a structured JSON envelope. -/
theorem error_envelope_counterexample :
    (lambda_handler (.obj []) cfg0 envPollErr).result = .uncaught "ConnectionError" := rfl

/-- C2 (amended): every response the handler returns is a structured envelope,
and every non-200 response body carries an `error` field; submission errors are
caught and converted to 500 responses; but exceptions raised during polling
propagate uncaught. -/
theorem error_envelope_amended (cfg : QueryConfig) :
    (∀ (event : Json) (env : QueryEnv) (r : LambdaResponse),
        (lambda_handler event cfg env).result = .response r →
        r.statusCode = 200
          ∨ ((r.statusCode = 500 ∨ r.statusCode = 504)
              ∧ ∃ msg : String, jField r.body "error" = some (.str msg)))
      ∧ (∀ (event b q : Json) (env : QueryEnv) (e : String),
          computeBody event = .ok b → pyGet b "query" (.str (defaultQuery cfg)) = .ok q →
          env.startResult = .error e →
          (lambda_handler event cfg env).result
              = .response (_response 500 (.obj [("error",
                  .str ("Failed to start query: " ++ e))])))
      ∧ (∀ (event b q : Json) (env : QueryEnv) (qid e : String),
          computeBody event = .ok b → pyGet b "query" (.str (defaultQuery cfg)) = .ok q →
          env.startResult = .ok qid → pollLoop cfg.maxWait env.polls = .pollError e →
          (lambda_handler event cfg env).result = .uncaught e)
      ∧ (∀ (event b q : Json) (env : QueryEnv) (qid : String) (st : AthenaStatus)
            (e : String),
          computeBody event = .ok b → pyGet b "query" (.str (defaultQuery cfg)) = .ok q →
          env.startResult = .ok qid → pollLoop cfg.maxWait env.polls = .terminal st →
          st.state = QState.SUCCEEDED →
          env.copyResult ⟨(urlparseS3 st.outputLocation).1,
              lstripSlash (urlparseS3 st.outputLocation).2, fixed_key⟩ = .error e →
          (lambda_handler event cfg env).result
              = .response (_response 500 (.obj [("error",
                  .str ("Failed to copy latest.csv: " ++ e))])))
      ∧ (∀ (event b q : Json) (env : QueryEnv) (qid : String) (st : AthenaStatus)
            (e : String),
          computeBody event = .ok b → pyGet b "query" (.str (defaultQuery cfg)) = .ok q →
          env.startResult = .ok qid → pollLoop cfg.maxWait env.polls = .terminal st →
          st.state = QState.SUCCEEDED →
          env.copyResult ⟨(urlparseS3 st.outputLocation).1,
              lstripSlash (urlparseS3 st.outputLocation).2, fixed_key⟩ = .ok () →
          env.queryResults = .error e →
          (lambda_handler event cfg env).result = .uncaught e)
      ∧ (∀ (event b q : Json) (env : QueryEnv) (qid : String) (st : AthenaStatus)
            (raw : List (List (Option String))) (e : String),
          computeBody event = .ok b → pyGet b "query" (.str (defaultQuery cfg)) = .ok q →
          env.startResult = .ok qid → pollLoop cfg.maxWait env.polls = .terminal st →
          st.state = QState.SUCCEEDED →
          env.copyResult ⟨(urlparseS3 st.outputLocation).1,
              lstripSlash (urlparseS3 st.outputLocation).2, fixed_key⟩ = .ok () →
          env.queryResults = .ok raw → shapeAll raw = .error e →
          (lambda_handler event cfg env).result = .uncaught e) := by
  refine ⟨?_, ?_, ?_, ?_, ?_, ?_⟩
  · intro event env r h
    unfold lambda_handler afterSubmit at h
    dsimp only at h
    repeat' split at h
    all_goals
      first
        | exact HandlerResult.noConfusion h
        | (have hr := (HandlerResult.response.inj h).symm
           subst hr
           first
             | exact Or.inl rfl
             | exact Or.inr ⟨Or.inl rfl, _, rfl⟩
             | exact Or.inr ⟨Or.inr rfl, _, rfl⟩)
  · intro event b q env e hb hq hstart
    rw [handler_eq_afterSubmit cfg env hb hq]
    unfold afterSubmit
    rw [hstart]
  · intro event b q env qid e hb hq hstart hpoll
    rw [handler_eq_afterSubmit cfg env hb hq]
    unfold afterSubmit
    simp only [hstart, hpoll]
  · intro event b q env qid st e hb hq hstart hpoll hsucc hcopy
    have hns : ¬(st.state ≠ QState.SUCCEEDED) := by simp [hsucc]
    rw [handler_eq_afterSubmit cfg env hb hq]
    unfold afterSubmit
    simp only [hstart, hpoll]
    rw [if_neg hns]
    simp only [hcopy]
  · intro event b q env qid st e hb hq hstart hpoll hsucc hcopy hres
    have hns : ¬(st.state ≠ QState.SUCCEEDED) := by simp [hsucc]
    rw [handler_eq_afterSubmit cfg env hb hq]
    unfold afterSubmit
    simp only [hstart, hpoll]
    rw [if_neg hns]
    simp only [hcopy, hres]
  · intro event b q env qid st raw e hb hq hstart hpoll hsucc hcopy hres hshape
    have hns : ¬(st.state ≠ QState.SUCCEEDED) := by simp [hsucc]
    rw [handler_eq_afterSubmit cfg env hb hq]
    unfold afterSubmit
    simp only [hstart, hpoll]
    rw [if_neg hns]
    simp only [hcopy, hres, hshape]

theorem error_envelope_amended_witness :
    (lambda_handler (.obj []) cfg0 envStartErr).result
        = .response (_response 500 (.obj [("error",
            .str ("Failed to start query: " ++ "AccessDenied"))]))
      ∧ ((_response 500 (.obj [("error",
              .str ("Failed to start query: " ++ "AccessDenied"))])).statusCode = 200
          ∨ (((_response 500 (.obj [("error",
                  .str ("Failed to start query: " ++ "AccessDenied"))])).statusCode = 500
              ∨ (_response 500 (.obj [("error",
                  .str ("Failed to start query: " ++ "AccessDenied"))])).statusCode = 504)
              ∧ ∃ msg : String, jField (_response 500 (.obj [("error",
                  .str ("Failed to start query: " ++ "AccessDenied"))])).body "error"
                    = some (.str msg)))
      ∧ (lambda_handler (.obj []) cfg0 envPollErr).result = .uncaught "ConnectionError"
      ∧ (lambda_handler (.obj []) cfg0 envCopyFail).result
          = .response (_response 500 (.obj [("error",
              .str ("Failed to copy latest.csv: " ++ "NoSuchKey"))]))
      ∧ (lambda_handler (.obj []) cfg0 envResErr).result = .uncaught "ThrottlingException"
      ∧ (lambda_handler (.obj []) cfg0 envShapeErr).result
          = .uncaught "IndexError: list index out of range" := by
  have h1 := (error_envelope_amended cfg0).2.1 (.obj []) (.obj [])
    (.str (defaultQuery cfg0)) envStartErr "AccessDenied" rfl rfl rfl
  exact ⟨h1, (error_envelope_amended cfg0).1 (.obj []) envStartErr _ h1,
    (error_envelope_amended cfg0).2.2.1 (.obj []) (.obj []) (.str (defaultQuery cfg0))
      envPollErr "qid" "ConnectionError" rfl rfl rfl rfl,
    (error_envelope_amended cfg0).2.2.2.1 (.obj []) (.obj []) (.str (defaultQuery cfg0))
      envCopyFail "qid" stSucc "NoSuchKey" rfl rfl rfl rfl rfl rfl,
    (error_envelope_amended cfg0).2.2.2.2.1 (.obj []) (.obj []) (.str (defaultQuery cfg0))
      envResErr "qid" stSucc "ThrottlingException" rfl rfl rfl rfl rfl rfl rfl,
    (error_envelope_amended cfg0).2.2.2.2.2 (.obj []) (.obj []) (.str (defaultQuery cfg0))
      envShapeErr "qid" stSucc [] "IndexError: list index out of range"
      rfl rfl rfl rfl rfl rfl rfl rfl⟩

/-! ### Result shaping lemmas -/

theorem dictInsert_fresh {α β : Type} [DecidableEq α] (k : α) (v : β) :
    ∀ acc : List (α × β), k ∉ acc.map Prod.fst → dictInsert k v acc = acc ++ [(k, v)]
  | [], _ => rfl
  | (k0, v0) :: rest, h => by
    simp only [List.map_cons, List.mem_cons, not_or] at h
    simp only [dictInsert, if_neg (fun he : k0 = k => h.1 he.symm)]
    rw [dictInsert_fresh k v rest h.2]
    simp

theorem shapeRowAux_ok :
    ∀ (hs : List String) (row : List (Option String)) (acc : List (String × Option String)),
      hs.Nodup → (∀ k ∈ acc.map Prod.fst, k ∉ hs) → row.length ≤ hs.length →
      shapeRowAux hs row acc = .ok (acc ++ hs.zip row)
  | hs, [], acc, _, _, _ => by simp [shapeRowAux]
  | [], _ :: _, _, _, _, hlen => by simp at hlen
  | h :: hs1, c :: cs, acc, hnd, hdisj, hlen => by
    have hfresh : h ∉ acc.map Prod.fst := fun hmem => hdisj h hmem (List.mem_cons_self h hs1)
    obtain ⟨hnotin, hnd1⟩ := List.nodup_cons.mp hnd
    show shapeRowAux hs1 cs (dictInsert h c acc) = _
    rw [dictInsert_fresh h c acc hfresh]
    rw [shapeRowAux_ok hs1 cs (acc ++ [(h, c)]) hnd1
      (by
        intro k hk hkhs1
        simp only [List.map_append, List.mem_append, List.map_cons, List.map_nil,
          List.mem_singleton] at hk
        rcases hk with hk | hk
        · exact hdisj k hk (List.mem_cons_of_mem _ hkhs1)
        · subst hk
          exact hnotin hkhs1)
      (by simpa using hlen)]
    simp

theorem shapeRow_ok (headers : List String) (row : List (Option String))
    (hnd : headers.Nodup) (hlen : row.length ≤ headers.length) :
    shapeRow headers row = .ok (headers.zip row) := by
  rw [shapeRow, shapeRowAux_ok headers row [] hnd (by simp) hlen]
  simp

theorem shapeRows_ok (headers : List String) (hnd : headers.Nodup) :
    ∀ rows : List (List (Option String)), (∀ row ∈ rows, row.length ≤ headers.length) →
      shapeRows headers rows = .ok (rows.map (fun row => headers.zip row))
  | [], _ => rfl
  | row :: rest, hlen => by
    simp only [shapeRows, shapeRow_ok headers row hnd (hlen row (by simp)),
      shapeRows_ok headers hnd rest (fun r hr => hlen r (by simp [hr])), List.map_cons]

theorem shapeAll_ok (row0 : List (Option String)) (rest : List (List (Option String)))
    (hnd : (shapeHeaders row0).Nodup)
    (hlen : ∀ row ∈ rest, row.length ≤ (shapeHeaders row0).length) :
    shapeAll (row0 :: rest)
      = .ok (shapeHeaders row0, rest.map (fun row => (shapeHeaders row0).zip row)) := by
  simp only [shapeAll, shapeRows_ok (shapeHeaders row0) hnd rest hlen]

theorem zip_cell :
    ∀ (hs : List String) (row : List (Option String)) (i : Nat) (c : Option String),
      row[i]? = some c → row.length ≤ hs.length →
      ∃ h : String, (hs.zip row)[i]? = some (h, c)
  | _, [], _, _, hc, _ => by simp at hc
  | [], _ :: _, _, _, _, hlen => by simp at hlen
  | h :: _, _ :: _, 0, c, hc, _ => by
    simp only [List.getElem?_cons_zero, Option.some.injEq] at hc
    subst hc
    exact ⟨h, by simp⟩
  | h :: hs1, r :: rs, i + 1, c, hc, hlen => by
    simp only [List.getElem?_cons_succ] at hc
    obtain ⟨h1, hh⟩ := zip_cell hs1 rs i c hc (by simpa using hlen)
    exact ⟨h1, by simpa using hh⟩

/-! ### Claim C6 -/

/-- C6: row 0 of the raw result supplies the column names and is never included in
the data; every subsequent row is zipped against those headers into a
column-to-value mapping with missing cells kept as the null marker. On the
concrete example the headers are `["a", "b"]` and the data rows are
`{"a": "1", "b": "2"}` and `{"a": "3", "b": null}`. -/
theorem shape_results (row0 : List (Option String)) (rest : List (List (Option String)))
    (hnd : (shapeHeaders row0).Nodup)
    (hlen : ∀ row ∈ rest, row.length ≤ (shapeHeaders row0).length) :
    shapeAll (row0 :: rest)
        = .ok (shapeHeaders row0, rest.map (fun row => (shapeHeaders row0).zip row))
      ∧ (rest.map (fun row => (shapeHeaders row0).zip row)).length = rest.length
      ∧ shapeAll [[some "a", some "b"], [some "1", some "2"], [some "3", none]]
          = .ok (["a", "b"],
              [[("a", some "1"), ("b", some "2")], [("a", some "3"), ("b", none)]]) :=
  ⟨shapeAll_ok row0 rest hnd hlen, by simp, rfl⟩

theorem shape_results_witness :
    ((shapeHeaders [some "a", some "b"]).Nodup)
      ∧ shapeAll ([some "a", some "b"] :: [[some "1", some "2"], [some "3", none]])
          = .ok (shapeHeaders [some "a", some "b"],
              [[some "1", some "2"], [some "3", none]].map
                (fun row => (shapeHeaders [some "a", some "b"]).zip row)) :=
  ⟨by decide, (shape_results [some "a", some "b"] [[some "1", some "2"], [some "3", none]]
      (by decide) (by decide)).1⟩

/-! ### Claim C10 -/

/-- C10: in the shaped response a header cell lacking a value is rendered as the
empty string in the headers list, whereas a data cell lacking a value is kept as
the null marker (rendered `Json.null`, which differs from `Json.str ""`): the
null-for-absent convention applies only to data rows. -/
theorem header_empty_vs_data_null :
    (∀ (row0 : List (Option String)) (i : Nat), row0[i]? = some none →
        (shapeHeaders row0)[i]? = some "")
      ∧ (∀ (headers : List String) (row : List (Option String)), headers.Nodup →
          row.length ≤ headers.length → ∀ i : Nat, row[i]? = some none →
          shapeRow headers row = .ok (headers.zip row)
            ∧ ∃ h : String, (headers.zip row)[i]? = some (h, none))
      ∧ cellJson none = Json.null
      ∧ (∀ s : String, cellJson (some s) = Json.str s)
      ∧ Json.null ≠ Json.str "" := by
  refine ⟨?_, ?_, rfl, fun s => rfl, ?_⟩
  · intro row0 i hc
    rw [shapeHeaders, List.getElem?_map, hc]
    rfl
  · intro headers row hnd hlen i hc
    exact ⟨shapeRow_ok headers row hnd hlen, zip_cell headers row i none hc hlen⟩
  · intro h
    exact Json.noConfusion h

theorem header_empty_vs_data_null_witness :
    ([none, some "b"] : List (Option String))[0]? = some none
      ∧ (shapeHeaders [none, some "b"])[0]? = some ""
      ∧ (["a", "b"] : List String).Nodup
      ∧ (shapeRow ["a", "b"] [some "1", none] = .ok (["a", "b"].zip [some "1", none])
          ∧ ∃ h : String, (["a", "b"].zip [some "1", none])[1]? = some (h, none)) :=
  ⟨rfl, header_empty_vs_data_null.1 [none, some "b"] 0 rfl, by decide,
    header_empty_vs_data_null.2.1 ["a", "b"] [some "1", none] (by decide) (by decide) 1 rfl⟩

/-! ### Claim C9 -/

theorem lookup_some_contains {β : Type} :
    ∀ (l : List (String × β)) (k : String) (v : β),
      List.lookup k l = some v → (l.map Prod.fst).contains k = true
  | [], _, _, h => by simp [List.lookup] at h
  | (k0, v0) :: rest, k, v, h => by
    by_cases hk : k = k0
    · subst hk
      simp [List.contains_cons]
    · have hbeq : (k == k0) = false := beq_eq_false_iff_ne.mpr hk
      have h1 : List.lookup k rest = some v := by
        simpa [List.lookup, hbeq] using h
      simp only [List.map_cons, List.contains_cons, lookup_some_contains rest k v h1,
        Bool.or_true]

/-- C9 counterexample: the event `{"body": "42"}` carries no query field, so the
claim demands the default SQL be submitted; instead the body parses to the
non-dict `42`, `body.get` raises an AttributeError, and nothing is ever
submitted. -/
theorem default_query_counterexample :
    (lambda_handler (.obj [("body", .str "42")]) cfg0 envAny).submitted = none
      ∧ (lambda_handler (.obj [("body", .str "42")]) cfg0 envAny).result
          = .uncaught "AttributeError: no attribute get" :=
  ⟨rfl, rfl⟩

/-- C9 (amended): provided the value consulted for the query is a JSON
object/dict: an event without a body and without a query field submits the
default statement; a string body that fails to parse submits the default; a
parsed body object carrying a query string submits it verbatim, and so does a
direct dict event with a query string. A body that parses to a non-object raises
before submission. -/
theorem default_query_verbatim (cfg : QueryConfig) (env : QueryEnv) :
    (∀ kvs : List (String × Json), (kvs.map Prod.fst).contains "body" = false →
        List.lookup "query" kvs = none →
        (lambda_handler (.obj kvs) cfg env).submitted = some (.str (defaultQuery cfg)))
      ∧ (∀ kvs : List (String × Json), ∀ s : String,
          List.lookup "body" kvs = some (.str s) → parseJson s = none →
          (lambda_handler (.obj kvs) cfg env).submitted = some (.str (defaultQuery cfg)))
      ∧ (∀ (kvs m : List (String × Json)) (s : String),
          List.lookup "body" kvs = some (.str s) → parseJson s = some (.obj m) →
          List.lookup "query" m = none →
          (lambda_handler (.obj kvs) cfg env).submitted = some (.str (defaultQuery cfg)))
      ∧ (∀ (kvs m : List (String × Json)) (s q : String),
          List.lookup "body" kvs = some (.str s) → parseJson s = some (.obj m) →
          List.lookup "query" m = some (.str q) →
          (lambda_handler (.obj kvs) cfg env).submitted = some (.str q))
      ∧ (∀ kvs m : List (String × Json),
          List.lookup "body" kvs = some (.obj m) → List.lookup "query" m = none →
          (lambda_handler (.obj kvs) cfg env).submitted = some (.str (defaultQuery cfg)))
      ∧ (∀ (kvs m : List (String × Json)) (q : String),
          List.lookup "body" kvs = some (.obj m) → List.lookup "query" m = some (.str q) →
          (lambda_handler (.obj kvs) cfg env).submitted = some (.str q))
      ∧ (∀ kvs : List (String × Json), (kvs.map Prod.fst).contains "body" = false →
          ∀ q : String, List.lookup "query" kvs = some (.str q) →
          (lambda_handler (.obj kvs) cfg env).submitted = some (.str q)) := by
  refine ⟨?_, ?_, ?_, ?_, ?_, ?_, ?_⟩
  · intro kvs hnb hnq
    have hbody : computeBody (.obj kvs) = .ok (.obj kvs) := by
      unfold computeBody pyContains
      dsimp only
      rw [hnb]
    have hget : pyGet (.obj kvs) "query" (.str (defaultQuery cfg))
        = .ok (.str (defaultQuery cfg)) := by
      unfold pyGet
      dsimp only
      rw [hnq]
      rfl
    rw [handler_eq_afterSubmit cfg env hbody hget, afterSubmit_submitted]
  · intro kvs s hbk hparse
    have hcont : (kvs.map Prod.fst).contains "body" = true :=
      lookup_some_contains kvs "body" (.str s) hbk
    have hbody : computeBody (.obj kvs) = .ok (.obj []) := by
      unfold computeBody pyContains
      dsimp only
      rw [hcont]
      dsimp only
      rw [hbk]
      dsimp only
      rw [hparse]
      rfl
    have hget : pyGet (.obj []) "query" (.str (defaultQuery cfg))
        = .ok (.str (defaultQuery cfg)) := rfl
    rw [handler_eq_afterSubmit cfg env hbody hget, afterSubmit_submitted]
  · intro kvs m s hbk hparse hnq
    have hcont : (kvs.map Prod.fst).contains "body" = true :=
      lookup_some_contains kvs "body" (.str s) hbk
    have hbody : computeBody (.obj kvs) = .ok (.obj m) := by
      unfold computeBody pyContains
      dsimp only
      rw [hcont]
      dsimp only
      rw [hbk]
      dsimp only
      rw [hparse]
      rfl
    have hget : pyGet (.obj m) "query" (.str (defaultQuery cfg))
        = .ok (.str (defaultQuery cfg)) := by
      unfold pyGet
      dsimp only
      rw [hnq]
      rfl
    rw [handler_eq_afterSubmit cfg env hbody hget, afterSubmit_submitted]
  · intro kvs m s q hbk hparse hquery
    have hcont : (kvs.map Prod.fst).contains "body" = true :=
      lookup_some_contains kvs "body" (.str s) hbk
    have hbody : computeBody (.obj kvs) = .ok (.obj m) := by
      unfold computeBody pyContains
      dsimp only
      rw [hcont]
      dsimp only
      rw [hbk]
      dsimp only
      rw [hparse]
      rfl
    have hget : pyGet (.obj m) "query" (.str (defaultQuery cfg)) = .ok (.str q) := by
      unfold pyGet
      dsimp only
      rw [hquery]
      rfl
    rw [handler_eq_afterSubmit cfg env hbody hget, afterSubmit_submitted]
  · intro kvs m hbk hnq
    have hcont : (kvs.map Prod.fst).contains "body" = true :=
      lookup_some_contains kvs "body" (.obj m) hbk
    have hbody : computeBody (.obj kvs) = .ok (.obj m) := by
      unfold computeBody pyContains
      dsimp only
      rw [hcont]
      dsimp only
      rw [hbk]
    have hget : pyGet (.obj m) "query" (.str (defaultQuery cfg))
        = .ok (.str (defaultQuery cfg)) := by
      unfold pyGet
      dsimp only
      rw [hnq]
      rfl
    rw [handler_eq_afterSubmit cfg env hbody hget, afterSubmit_submitted]
  · intro kvs m q hbk hquery
    have hcont : (kvs.map Prod.fst).contains "body" = true :=
      lookup_some_contains kvs "body" (.obj m) hbk
    have hbody : computeBody (.obj kvs) = .ok (.obj m) := by
      unfold computeBody pyContains
      dsimp only
      rw [hcont]
      dsimp only
      rw [hbk]
    have hget : pyGet (.obj m) "query" (.str (defaultQuery cfg)) = .ok (.str q) := by
      unfold pyGet
      dsimp only
      rw [hquery]
      rfl
    rw [handler_eq_afterSubmit cfg env hbody hget, afterSubmit_submitted]
  · intro kvs hnb q hquery
    have hbody : computeBody (.obj kvs) = .ok (.obj kvs) := by
      unfold computeBody pyContains
      dsimp only
      rw [hnb]
    have hget : pyGet (.obj kvs) "query" (.str (defaultQuery cfg)) = .ok (.str q) := by
      unfold pyGet
      dsimp only
      rw [hquery]
      rfl
    rw [handler_eq_afterSubmit cfg env hbody hget, afterSubmit_submitted]

theorem default_query_verbatim_witness :
    (lambda_handler (.obj []) cfg0 envAny).submitted = some (.str (defaultQuery cfg0))
      ∧ (lambda_handler (.obj [("body", .str "not json")]) cfg0 envAny).submitted
          = some (.str (defaultQuery cfg0))
      ∧ (lambda_handler (.obj [("body", .str "\x7b\"x\": 1\x7d")]) cfg0 envAny).submitted
          = some (.str (defaultQuery cfg0))
      ∧ (lambda_handler (.obj [("body", .str "\x7b\"query\": \"SELECT 1\"\x7d")]) cfg0
            envAny).submitted = some (.str "SELECT 1")
      ∧ (lambda_handler (.obj [("body", .obj [])]) cfg0 envAny).submitted
          = some (.str (defaultQuery cfg0))
      ∧ (lambda_handler (.obj [("body", .obj [("query", .str "SELECT 7")])]) cfg0
            envAny).submitted = some (.str "SELECT 7")
      ∧ (lambda_handler (.obj [("query", .str "SELECT 99;")]) cfg0 envAny).submitted
          = some (.str "SELECT 99;") :=
  ⟨(default_query_verbatim cfg0 envAny).1 [] rfl rfl,
    (default_query_verbatim cfg0 envAny).2.1 [("body", .str "not json")] "not json" rfl rfl,
    (default_query_verbatim cfg0 envAny).2.2.1 [("body", .str "\x7b\"x\": 1\x7d")]
      [("x", .num 1 0)] "\x7b\"x\": 1\x7d" rfl rfl rfl,
    (default_query_verbatim cfg0 envAny).2.2.2.1
      [("body", .str "\x7b\"query\": \"SELECT 1\"\x7d")]
      [("query", .str "SELECT 1")] "\x7b\"query\": \"SELECT 1\"\x7d" "SELECT 1" rfl rfl rfl,
    (default_query_verbatim cfg0 envAny).2.2.2.2.1 [("body", .obj [])] [] rfl rfl,
    (default_query_verbatim cfg0 envAny).2.2.2.2.2.1
      [("body", .obj [("query", .str "SELECT 7")])] [("query", .str "SELECT 7")]
      "SELECT 7" rfl rfl,
    (default_query_verbatim cfg0 envAny).2.2.2.2.2.2 [("query", .str "SELECT 99;")] rfl
      "SELECT 99;" rfl⟩
